import Mathlib

/-!
Verification of the OpenWorldAgent analysis-and-synthesis pipeline.

Shallow embedding of the core JavaScript modules:
  - `core/interface-mapper.js` (`InterfaceMapper`)
  - `core/tool-generator.js` (`ToolGenerator`)
  - `core/vision-analyzer.js` (`VisionAnalyzer`)
  - `core/auth-manager.js` (`AuthManager`)
  - `core/orchestrator.js` (`Orchestrator`)

Numbers that are JS floats (confidence scores, bounding boxes) are modelled
as `Rat`; JS strings as `String`; nullable/possibly-absent JS values as
`Option`; code that can throw as `Except String`.  Stateful external
collaborators (the browser page, the filesystem, the two vision detectors)
are modelled by environment records carrying the outcome of each external
call, so the control flow of the embedded functions is exactly that of the
source.
-/

namespace OpenWorldAgent

/-! ## JS string primitives -/

/-- JS `String.prototype.toLowerCase` restricted to ASCII, which is all the
source ever feeds it (keyword matching over element text). -/
def jsToLower (s : String) : String :=
  String.mk (s.toList.map Char.toLower)

/-- Does `pat` occur as a prefix-at-some-position of `s`?  Models
JS `String.prototype.includes`. -/
def strIncludes (s pat : String) : Bool :=
  s.toList.tails.any (fun t => pat.toList.isPrefixOf t)

/-- Split `s` at the first occurrence of `sep`, returning the parts before
and after.  `none` when `sep` does not occur. -/
def splitAtSub (sep : List Char) : List Char → Option (List Char × List Char)
  | [] => if sep = [] then some ([], []) else none
  | c :: rest =>
    if sep.isPrefixOf (c :: rest) then some ([], (c :: rest).drop sep.length)
    else
      match splitAtSub sep rest with
      | some (pre, post) => some (c :: pre, post)
      | none => none

/-- Modelled from the spec: the WHATWG `URL` constructor used by the source
(`new URL(url).hostname` in `extractSiteName`, `generateAnalysisId` and
`analyzeAndHandle`) is a platform builtin, not repository code.  We model
the success/failure behaviour and hostname extraction the source relies on:
parsing succeeds when the string has an alphabetic scheme followed by
`://` and a nonempty host; the hostname is the authority up to the first
`/`, `?` or `#`, with any `:port` suffix stripped (userinfo handling is
elided; no input in this development uses it).  Unparseable strings such
as `"not a url"` make the constructor throw, modelled by `none`. -/
def parseURLHost (url : String) : Option String :=
  match splitAtSub "://".toList url.toList with
  | none => none
  | some (scheme, rest) =>
    if scheme ≠ [] ∧ scheme.all Char.isAlpha then
      let authority := rest.takeWhile (fun c => !(c == '/' || c == '?' || c == '#'))
      let host := authority.takeWhile (fun c => !(c == ':'))
      if host ≠ [] then some (String.mk host) else none
    else none

/-- JS string concatenation with a value produced by `getAttribute`, which
is `null` when the attribute is absent: `"x" + null` evaluates to
`"xnull"`. -/
def jsConcatAttr (s : String) (o : Option String) : String :=
  s ++ (match o with | some t => t | none => "null")

/-- JS truthiness of a possibly-null string (`null`, `undefined` and `""`
are falsy). -/
def jsTruthyStr : Option String → Bool
  | some s => s ≠ ""
  | none => false

/-! ## ElementDescriptor (`interface-mapper.js`, `page.evaluate` block) -/

/-- The `attributes` sub-object of an element descriptor.  `id`,
`className` and `name` come from element properties; `role`, `ariaLabel`
and `dataTestId` come from `getAttribute` and are `null` when absent. -/
structure ElementAttributes where
  id : String
  className : String
  name : Option String
  role : Option String
  ariaLabel : Option String
  dataTestId : Option String
deriving DecidableEq, Repr

/-- Bounding rectangle from `getBoundingClientRect`. -/
structure Rect where
  x : Rat
  y : Rat
  width : Rat
  height : Rat
deriving DecidableEq, Repr

/-- One normalized interactive-element descriptor (`elData` in
`mapElements`).  String fields that the source defaults with `|| ''` are
plain `String`s; nullable attribute fields are `Option String`. -/
structure Element where
  id : String
  tag : String
  type : String
  text : String
  placeholder : String
  value : String
  href : String
  rect : Rect
  attributes : ElementAttributes
  parent : Option String
  isVisible : Bool
  isClickable : Bool
  selector : String
deriving DecidableEq, Repr

/-- The raw element map returned by the `page.evaluate` block of
`mapElements`, before categorization. -/
structure ElementMap where
  elements : List Element
  totalElements : Nat
  forms : Nat
  navigation : List String
  primaryActions : List String
deriving DecidableEq, Repr

/-! ## InterfaceMapper category predicates -/

def authKeywords : List String :=
  ["login", "signin", "signup", "password", "email", "register", "auth"]

/-- `InterfaceMapper.isAuthElement`. -/
def isAuthElement (element : Element) : Bool :=
  let text := jsToLower
    (element.text ++ element.placeholder ++ element.attributes.id ++ element.attributes.className)
  authKeywords.any (fun keyword => strIncludes text keyword) || element.type == "password"

def navKeywords : List String :=
  ["home", "about", "contact", "menu", "nav", "link"]

/-- `InterfaceMapper.isNavigationElement`. -/
def isNavigationElement (element : Element) : Bool :=
  let text := jsToLower (element.text ++ element.href ++ element.attributes.className)
  element.tag == "a" || navKeywords.any (fun keyword => strIncludes text keyword)

/-- `InterfaceMapper.isFormElement`. -/
def isFormElement (element : Element) : Bool :=
  ["input", "textarea", "select"].contains element.tag && !(isAuthElement element)

def actionKeywords : List String :=
  ["create", "generate", "submit", "send", "save", "delete", "edit", "update"]

/-- `InterfaceMapper.isActionElement`.  Note the source concatenates
`element.text + element.attributes.ariaLabel` where `ariaLabel` may be
`null`, yielding the literal text `"null"`. -/
def isActionElement (element : Element) : Bool :=
  let text := jsToLower (jsConcatAttr element.text element.attributes.ariaLabel)
  element.tag == "button" || actionKeywords.any (fun keyword => strIncludes text keyword)

/-! ## InterfaceMapper.categorizeElements -/

/-- The five category buckets, mirroring the `categories` object literal in
`categorizeElements` (JS objects preserve insertion order, captured by
`categoriesEntries` below). -/
structure Categories where
  authentication : List Element
  navigation : List Element
  forms : List Element
  actions : List Element
  content : List Element
deriving DecidableEq, Repr

def initCategories : Categories := ⟨[], [], [], [], []⟩

/-- One iteration of the `elementMap.elements.forEach` if/else-if chain in
`categorizeElements`: the element is pushed into the bucket of the first
matching predicate. -/
def categorizeStep (cats : Categories) (element : Element) : Categories :=
  if isAuthElement element then
    { cats with authentication := cats.authentication ++ [element] }
  else if isNavigationElement element then
    { cats with navigation := cats.navigation ++ [element] }
  else if isFormElement element then
    { cats with forms := cats.forms ++ [element] }
  else if isActionElement element then
    { cats with actions := cats.actions ++ [element] }
  else
    { cats with content := cats.content ++ [element] }

/-- The name of the bucket an element is pushed into: the predicates tested
in the source's fixed order, first match winning. -/
def categoryOf (element : Element) : String :=
  if isAuthElement element then "authentication"
  else if isNavigationElement element then "navigation"
  else if isFormElement element then "forms"
  else if isActionElement element then "actions"
  else "content"

def catNames : List String :=
  ["authentication", "navigation", "forms", "actions", "content"]

/-- `Object.entries(categories)` in insertion order. -/
def categoriesEntries (cats : Categories) : List (String × List Element) :=
  [("authentication", cats.authentication),
   ("navigation", cats.navigation),
   ("forms", cats.forms),
   ("actions", cats.actions),
   ("content", cats.content)]

/-- `InterfaceMapper.assessAutomationPotential`:
`Object.values(categories).flat()` is the concatenation of the five buckets
in insertion order. -/
structure AutomationPotential where
  score : Nat
  hasAuth : Bool
  hasActions : Bool
  hasForms : Bool
  hasNavigation : Bool
  totalInteractiveElements : Nat
deriving DecidableEq, Repr

def flatCategories (cats : Categories) : List Element :=
  cats.authentication ++ cats.navigation ++ cats.forms ++ cats.actions ++ cats.content

def assessAutomationPotential (cats : Categories) : AutomationPotential :=
  { score := min 100 ((flatCategories cats).length * 10)
    hasAuth := cats.authentication.length > 0
    hasActions := cats.actions.length > 0
    hasForms := cats.forms.length > 0
    hasNavigation := cats.navigation.length > 0
    totalInteractiveElements := (flatCategories cats).length }

/-- The result of `categorizeElements` (and hence of a successful
`mapElements`): the spread element map plus `categories` and
`automationPotential`.  `categories` is kept as an entries list because
`ToolGenerator` iterates it with `Object.entries`; the degraded value
`{ elements: [], categories: {} }` returned by `mapElements` on failure
has the empty entries list and absent other fields. -/
structure InterfaceMap where
  elements : List Element
  totalElements : Option Nat
  forms : Option Nat
  navigation : Option (List String)
  primaryActions : Option (List String)
  categories : List (String × List Element)
  automationPotential : Option AutomationPotential
deriving DecidableEq, Repr

/-- `InterfaceMapper.categorizeElements`. -/
def categorizeElements (elementMap : ElementMap) : InterfaceMap :=
  let cats := elementMap.elements.foldl categorizeStep initCategories
  { elements := elementMap.elements
    totalElements := some elementMap.totalElements
    forms := some elementMap.forms
    navigation := some elementMap.navigation
    primaryActions := some elementMap.primaryActions
    categories := categoriesEntries cats
    automationPotential := some (assessAutomationPotential cats) }

/-- The degraded map returned by `mapElements` when extraction throws:
`{ elements: [], categories: {} }`. -/
def degradedInterfaceMap : InterfaceMap :=
  { elements := []
    totalElements := none
    forms := none
    navigation := none
    primaryActions := none
    categories := []
    automationPotential := none }

/-! ## VisionAnalyzer (`core/vision-analyzer.js`) -/

/-- One element detected by the primary (VisionCraft-style) detector. -/
structure VisionElement where
  type : String
  text : Option String
  placeholder : Option String
  location : Option Rect
  confidence : Option Rat
  actionable : Option Bool
  inputType : Option String
  primary : Option Bool
deriving DecidableEq, Repr

/-- One detection from the secondary (YOLO-style) detector. -/
structure YoloDetection where
  class_ : String
  confidence : Option Rat
  bbox : List Rat
deriving DecidableEq, Repr

/-- The `authFlow` summary of a detector result. -/
structure AuthFlow where
  detected : Bool
  type : Option String
  signInButton : Option String
  signUpButton : Option String
deriving DecidableEq, Repr

/-- The `navigation` summary of a detector result. -/
structure NavData where
  primaryActions : List String
  secondaryActions : List String
deriving DecidableEq, Repr

/-- One entry of the accessibility snapshot (`extractAccessibilityContext`).
Only the fields observable through the claims are carried; the remaining
descriptor fields extracted in the `page.evaluate` block (role, rect,
class list, ...) do not influence any embedded computation and are
elided. -/
structure AccessEl where
  tag : String
  text : String
  clickable : Bool
deriving DecidableEq, Repr

/-- The accessibility snapshot attached to every vision result. -/
structure AccessData where
  elements : List AccessEl
  totalElements : Nat
deriving DecidableEq, Repr

/-- What a single detector returns (the JS result objects of
`tryVisionCraft` / `tryYOLO`).  All fields except `method` may be absent
in one of the two shapes (the YOLO shape has `detections`, no
`elements`). -/
structure DetectorOut where
  method : String
  confidence : Option Rat
  elements : Option (List VisionElement)
  detections : Option (List YoloDetection)
  authFlow : Option AuthFlow
  navigation : Option NavData
deriving DecidableEq, Repr

/-- The value `analyze` returns: a detector result bag plus the fields the
coordinator may add (`yoloBackup`, `multiModal`, `accessibility`,
`error`).  A field the JS code never assigned is `none` / `false`. -/
structure VisionResult where
  out : DetectorOut
  yoloBackup : Option DetectorOut
  multiModal : Bool
  accessibility : Option AccessData
  error : Option String
deriving DecidableEq, Repr

/-- A bare detector result viewed as a `VisionResult` (no backup, no
multi-source flag, nothing attached yet). -/
def liftOut (d : DetectorOut) : VisionResult :=
  { out := d, yoloBackup := none, multiModal := false
    accessibility := none, error := none }

/-- `VisionAnalyzer.isAnalysisComplete`: `false` for `null`, otherwise
requires a present, nonempty `elements` list. -/
def isAnalysisComplete (analysis : Option DetectorOut) : Bool :=
  match analysis with
  | none => false
  | some a =>
    match a.elements with
    | none => false
    | some es => es.length > 0

/-- `VisionAnalyzer.mergeAnalysis`: `null` on either side returns the
other verbatim; otherwise all primary fields are kept, the secondary is
attached as `yoloBackup`, `confidence` becomes
`Math.max(primary.confidence || 0, secondary.confidence || 0)` and the
result is flagged `multiModal`. -/
def mergeAnalysis (visionResult yoloResult : Option DetectorOut) : Option VisionResult :=
  match visionResult, yoloResult with
  | none, y => y.map liftOut
  | some v, none => some (liftOut v)
  | some v, some y =>
    some { out := { v with
                    confidence := some (max (v.confidence.getD 0) (y.confidence.getD 0)) }
           yoloBackup := some y
           multiModal := true
           accessibility := none
           error := none }

/-- `VisionAnalyzer.createFallbackAnalysis`: the fixed degraded result. -/
def createFallbackAnalysis : VisionResult :=
  { out := { method := "fallback"
             confidence := some (1/2)
             elements := some []
             detections := none
             authFlow := some { detected := false, type := none
                                signInButton := none, signUpButton := none }
             navigation := some { primaryActions := [], secondaryActions := [] } }
    yoloBackup := none
    multiModal := false
    accessibility := some { elements := [], totalElements := 0 }
    error := some "Vision analysis failed, using accessibility tree only" }

/-- The outcomes of the external calls `analyze` makes, in source order:
the page URL read by `generateAnalysisId`, the temp-dir/screenshot-save
filesystem step, the two detectors (each catches internally and yields
`null` on failure), and the accessibility extraction (which catches
internally and degrades, so it is total). -/
structure VisionEnv where
  pageUrl : String
  saveStep : Except String Unit
  primary : Option DetectorOut
  secondary : Option DetectorOut
  accessibility : AccessData
deriving Repr

/-- `VisionAnalyzer.analyze`.  `generateAnalysisId(page.url())` calls
`new URL(url)` before the `try` block, so an unparseable page URL throws
out of `analyze` (`Except.error`).  Inside the `try`: a filesystem
failure is caught and degrades to the fallback; an incomplete or missing
primary result triggers the secondary detector and `mergeAnalysis`; if
the merged result is `null` (both detectors failed), the property
assignment `visionResult.accessibility = ...` throws a `TypeError` that
the `catch` turns into the fallback; otherwise the accessibility snapshot
is attached and the result returned.  (The analysis cache write and the
timestamp inside the analysis id are I/O elided from the embedding.) -/
def analyze (env : VisionEnv) : Except String VisionResult :=
  match parseURLHost env.pageUrl with
  | none => Except.error "Invalid URL"
  | some _host =>
    match env.saveStep with
    | Except.error _ => Except.ok createFallbackAnalysis
    | Except.ok _ =>
      let visionResult := env.primary
      let merged : Option VisionResult :=
        if visionResult.isNone || !(isAnalysisComplete visionResult) then
          mergeAnalysis visionResult env.secondary
        else
          visionResult.map liftOut
      match merged with
      | none => Except.ok createFallbackAnalysis
      | some v => Except.ok { v with accessibility := some env.accessibility }

/-! ## ToolGenerator (`core/tool-generator.js`) -/

/-- The JS values that appear as schema-property defaults in the source:
strings, booleans and the empty object literal. -/
inductive JsValue where
  | str (s : String)
  | bool (b : Bool)
  | emptyObj
deriving DecidableEq, Repr

/-- One property of a tool's input schema. -/
structure SchemaProp where
  type : String
  description : Option String := none
  default : Option JsValue := none
  enum : Option (List String) := none
deriving DecidableEq, Repr

/-- A tool's `inputSchema`.  `properties` is an insertion-ordered JS
object, modelled as an association list. -/
structure InputSchema where
  type : String
  properties : List (String × SchemaProp)
  required : Option (List String) := none
deriving DecidableEq, Repr

/-- One generated tool descriptor. -/
structure Tool where
  name : String
  description : String
  inputSchema : InputSchema
  implementation : String
  selector : Option String := none
  element : Option Element := none
  href : Option String := none
  formElements : Option (List Element) := none
  visionData : Option AuthFlow := none
deriving DecidableEq, Repr

/-- `metadata` of the generated tool set.  `generatedAt` is the value of
`new Date().toISOString()` at the moment of the call; the embedding takes
it as an explicit clock input `now`. -/
structure ToolSetMetadata where
  url : String
  siteName : String
  generatedAt : String
  interfaceElements : Option Nat
deriving DecidableEq, Repr

/-- The object returned by `generateFromAnalysis`.  Note it has keys
`tools` / `totalTools` / `categories` / `metadata` and no `length`
property. -/
structure ToolSet where
  tools : List Tool
  totalTools : Nat
  categories : List String
  metadata : ToolSetMetadata
deriving DecidableEq, Repr

/-- `ToolGenerator.sanitizeName`: every character outside `[a-zA-Z0-9]`
becomes `_`, then the result is truncated to 20 characters. -/
def sanitizeName (name : String) : String :=
  String.mk (((name.toList.map (fun c => if c.isAlphanum then c else '_'))).take 20)

/-- `ToolGenerator.extractSiteName`: hostname with dots replaced by
underscores and remaining non-word characters removed; the literal
`"site"` when URL parsing throws. -/
def extractSiteName (url : String) : String :=
  match parseURLHost url with
  | some host =>
    String.mk (((host.toList.map (fun c => if c == '.' then '_' else c))).filter
      (fun c => c.isAlphanum || c == '_'))
  | none => "site"

/-- `ToolGenerator.generateBaseTools`: the three tools every site gets. -/
def generateBaseTools (siteName : String) : List Tool :=
  [ { name := siteName ++ "_initialize"
      description := "Initialize browser session and navigate to " ++ siteName
      inputSchema := { type := "object"
                       properties := [("headless", { type := "boolean"
                                                     default := some (JsValue.bool false) })] }
      implementation := "navigate_and_initialize" },
    { name := siteName ++ "_screenshot"
      description := "Take screenshot of " ++ siteName ++ " page"
      inputSchema := { type := "object"
                       properties := [("filename", { type := "string"
                                                     default := some (JsValue.str (siteName ++ "_screenshot.png")) })] }
      implementation := "take_screenshot" },
    { name := siteName ++ "_get_status"
      description := "Get current status and page information"
      inputSchema := { type := "object", properties := [] }
      implementation := "get_page_status" } ]

/-- `ToolGenerator.generateAuthTools`: a login tool when some element's
text contains `login` or `signin`, a signup tool when some element's text
contains `signup` or `register`. -/
def generateAuthTools (elements : List Element) (siteName : String) : List Tool :=
  let loginTools :=
    if elements.any (fun el =>
        strIncludes (jsToLower el.text) "login" || strIncludes (jsToLower el.text) "signin") then
      [ { name := siteName ++ "_login"
          description := "Login to " ++ siteName ++ " with credentials"
          inputSchema := { type := "object"
                           properties := [("email", { type := "string"
                                                      description := some "Email address" }),
                                          ("password", { type := "string"
                                                         description := some "Password" })]
                           required := some ["email", "password"] }
          implementation := "handle_login" } ]
    else []
  let signupTools :=
    if elements.any (fun el =>
        strIncludes (jsToLower el.text) "signup" || strIncludes (jsToLower el.text) "register") then
      [ { name := siteName ++ "_signup"
          description := "Create new account on " ++ siteName
          inputSchema := { type := "object"
                           properties := [("email", { type := "string" }),
                                          ("password", { type := "string" }),
                                          ("firstName", { type := "string" }),
                                          ("lastName", { type := "string" })]
                           required := some ["email", "password"] }
          implementation := "handle_signup" } ]
    else []
  loginTools ++ signupTools

/-- `ToolGenerator.generateActionTools`: one click tool per clickable
element with nonempty text, capped at 10 by `slice(0, 10)`. -/
def generateActionTools (elements : List Element) (siteName : String) : List Tool :=
  ((elements.filter (fun el => el.isClickable && el.text ≠ "")).map (fun el =>
    ({ name := siteName ++ "_" ++ sanitizeName (jsToLower el.text)
       description := el.text ++ " action on " ++ siteName
       inputSchema := { type := "object"
                        properties := [("options", { type := "object"
                                                     default := some JsValue.emptyObj })] }
       implementation := "click_element"
       selector := some el.selector
       element := some el } : Tool))).take 10

/-- `ToolGenerator.groupFormElements`: the baseline grouping returns the
whole element list as one group — also when the list is empty. -/
def groupFormElements (elements : List Element) : List (List Element) :=
  [elements]

/-- JS object-property assignment on an insertion-ordered object: an
existing key is updated in place, a new key is appended. -/
def objSet (obj : List (String × SchemaProp)) (key : String) (v : SchemaProp) :
    List (String × SchemaProp) :=
  if obj.any (fun p => p.1 == key) then
    obj.map (fun p => if p.1 == key then (p.1, v) else p)
  else
    obj ++ [(key, v)]

/-- `ToolGenerator.generateFormSchema`: one string field per element that
has a placeholder or a `name` attribute. -/
def generateFormSchema (elements : List Element) : List (String × SchemaProp) :=
  elements.foldl (fun schema element =>
    if element.placeholder ≠ "" || jsTruthyStr element.attributes.name then
      let fieldName :=
        match element.attributes.name with
        | some n => if n ≠ "" then n else sanitizeName element.placeholder
        | none => sanitizeName element.placeholder
      objSet schema fieldName
        { type := "string"
          description := some (if element.placeholder ≠ "" then element.placeholder
                               else fieldName ++ " field") }
    else schema) []

/-- `ToolGenerator.generateFormTools`: one fill-form tool per group
produced by `groupFormElements`. -/
def generateFormTools (elements : List Element) (siteName : String) : List Tool :=
  ((groupFormElements elements).enum).map (fun gi =>
    ({ name := siteName ++ "_fill_form_" ++ toString (gi.1 + 1)
       description := "Fill form " ++ toString (gi.1 + 1) ++ " on " ++ siteName
       inputSchema := { type := "object", properties := generateFormSchema gi.2 }
       implementation := "fill_form"
       formElements := some gi.2 } : Tool))

/-- `ToolGenerator.generateNavigationTools`: one navigation tool per
element with both an href and text, capped at 5 by `slice(0, 5)`. -/
def generateNavigationTools (elements : List Element) (siteName : String) : List Tool :=
  ((elements.filter (fun el => el.href ≠ "" && el.text ≠ "")).map (fun el =>
    ({ name := siteName ++ "_goto_" ++ sanitizeName el.text
       description := "Navigate to " ++ el.text ++ " on " ++ siteName
       inputSchema := { type := "object", properties := [] }
       implementation := "navigate_to"
       href := some el.href
       element := some el } : Tool))).take 5

/-- `ToolGenerator.generateVisionTools`: one vision-driven auth tool when
the vision result reports a detected authentication flow. -/
def generateVisionTools (visionResult : VisionResult) (siteName : String) : List Tool :=
  match visionResult.out.authFlow with
  | some af =>
    if af.detected then
      [ { name := siteName ++ "_vision_auth"
          description := "Handle authentication using vision-detected elements"
          inputSchema := { type := "object"
                           properties := [("action", { type := "string"
                                                       enum := some ["login", "signup"]
                                                       default := some (JsValue.str "login") })] }
          implementation := "vision_based_auth"
          visionData := some af } ]
    else []
  | none => []

/-- `ToolGenerator.generateCategoryTools`: the `switch (category)`. -/
def generateCategoryTools (category : String) (elements : List Element)
    (siteName : String) : List Tool :=
  if category == "authentication" then generateAuthTools elements siteName
  else if category == "actions" then generateActionTools elements siteName
  else if category == "forms" then generateFormTools elements siteName
  else if category == "navigation" then generateNavigationTools elements siteName
  else []

/-- `ToolGenerator.generateFromAnalysis`.  `now` is the clock value read
by `new Date().toISOString()` for `metadata.generatedAt`.  The guard
`visionResult && visionResult.elements` requires a non-null result whose
`elements` field is present (an empty array is truthy). -/
def generateFromAnalysis (interfaceMap : InterfaceMap) (visionResult : Option VisionResult)
    (url : String) (now : String) : ToolSet :=
  let siteName := extractSiteName url
  let baseTools := generateBaseTools siteName
  let categoryTools :=
    interfaceMap.categories.foldl
      (fun acc entry => acc ++ generateCategoryTools entry.1 entry.2 siteName) []
  let visionTools :=
    match visionResult with
    | some v =>
      match v.out.elements with
      | some _ => generateVisionTools v siteName
      | none => []
    | none => []
  let tools := baseTools ++ categoryTools ++ visionTools
  { tools := tools
    totalTools := tools.length
    categories := interfaceMap.categories.map (fun entry => entry.1)
    metadata := { url := url
                  siteName := siteName
                  generatedAt := now
                  interfaceElements := interfaceMap.totalElements } }

/-! ## AuthManager (`core/auth-manager.js`) -/

/-- The environment-variable configuration read in `initializeProfile`
(`this.env.USER_...`); absent variables fall back to the literal defaults
in the source. -/
structure EnvConfig where
  USER_FIRST_NAME : Option String
  USER_LAST_NAME : Option String
  USER_EMAIL : Option String
  USER_PHONE : Option String
  USER_ADDRESS : Option String
  USER_PASSWORD : Option String
deriving DecidableEq, Repr

structure PersonalInfo where
  firstName : String
  lastName : String
  email : String
  phone : String
  address : String
deriving DecidableEq, Repr

structure PrimaryCredential where
  email : String
  password : String
deriving DecidableEq, Repr

structure Credentials where
  primary : PrimaryCredential
  variations : List String
deriving DecidableEq, Repr

structure Preferences where
  preferGoogleSSO : Bool
  autoCreateAccounts : Bool
  rememberPasswords : Bool
deriving DecidableEq, Repr

/-- The persisted authentication profile (the empty `sessions` object is
elided: nothing in the embedded code reads or writes it). -/
structure Profile where
  personal : PersonalInfo
  credentials : Credentials
  preferences : Preferences
deriving DecidableEq, Repr

/-- The profile built from environment variables when no persisted profile
loads (`initializeProfile`'s `catch` branch). -/
def defaultProfile (env : EnvConfig) : Profile :=
  { personal := { firstName := env.USER_FIRST_NAME.getD "User"
                  lastName := env.USER_LAST_NAME.getD "Name"
                  email := env.USER_EMAIL.getD "user@example.com"
                  phone := env.USER_PHONE.getD "555-555-5555"
                  address := env.USER_ADDRESS.getD "123 Example St, City, State, ZIP" }
    credentials := { primary := { email := env.USER_EMAIL.getD "user@example.com"
                                  password := env.USER_PASSWORD.getD "secure_password" }
                     variations := [env.USER_EMAIL.getD "user@example.com"] }
    preferences := { preferGoogleSSO := true
                     autoCreateAccounts := true
                     rememberPasswords := true } }

/-- The structured data the `page.evaluate` block of `checkLoginStatus`
returns. -/
structure LoginIndicators where
  hasLoggedInIndicators : Bool
  hasLoginForms : Bool
  url : String
deriving DecidableEq, Repr

/-- The value `checkLoginStatus` resolves with. -/
structure LoginStatus where
  loggedIn : Bool
  confidence : Option Rat
  indicators : Option LoginIndicators
  error : Option String
deriving DecidableEq, Repr

/-- The value `detectAuthenticationForms` resolves with.  The method body
is not part of the provided sources; modelled from the spec (§4.3 step 2):
it reports whether the page exposes any authentication affordance, a
Google-style single-sign-on control, and/or an email/password form. -/
structure AuthForms where
  hasAuth : Bool
  hasGoogleSSO : Bool
  hasEmailPassword : Bool
deriving DecidableEq, Repr

/-- The result shape of `analyzeAndHandle` and its handler branches. -/
structure AuthResult where
  success : Bool
  action : Option String := none
  error : Option String := none
  loggedIn : Option Bool := none
  confidence : Option Rat := none
  indicators : Option LoginIndicators := none
deriving DecidableEq, Repr

/-- Outcomes of the external calls `analyzeAndHandle` makes:
profile load (`fs.readFile` + `JSON.parse`), the login-status page
evaluation, and the three calls whose bodies are outside the provided
sources.  `detectForms`, `ssoResult` and `emailPasswordResult` are
modelled from the spec: each is an asynchronous step that either resolves
with its result or rejects (throws). -/
structure AuthEnv where
  envConfig : EnvConfig
  loadProfile : Except String Profile
  loginEval : Except String LoginIndicators
  detectForms : Except String AuthForms
  ssoResult : Except String AuthResult
  emailPasswordResult : Except String AuthResult
deriving Repr

/-- `AuthManager.initializeProfile`: returns the cached profile when one
exists; otherwise loads the persisted profile, falling back to the
environment-derived default when loading or parsing throws.  (`saveProfile`
catches all its own errors, so profile initialization never throws.) -/
def initializeProfile (cached : Option Profile) (env : AuthEnv) : Profile :=
  match cached with
  | some p => p
  | none =>
    match env.loadProfile with
    | Except.ok p => p
    | Except.error _ => defaultProfile env.envConfig

/-- `AuthManager.checkLoginStatus`: the decision rule
`loggedIn = hasLoggedInIndicators AND NOT hasLoginForms` with the fixed
confidence constants 0.8 / 0.9; a page-evaluation failure is caught and
degrades to `loggedIn: false` with the error message. -/
def checkLoginStatus (loginEval : Except String LoginIndicators) : LoginStatus :=
  match loginEval with
  | Except.ok indicators =>
    let loggedIn := indicators.hasLoggedInIndicators && !indicators.hasLoginForms
    { loggedIn := loggedIn
      confidence := some (if loggedIn then (8 : Rat)/10 else (9 : Rat)/10)
      indicators := some indicators
      error := none }
  | Except.error m =>
    { loggedIn := false, confidence := none, indicators := none, error := some m }

/-- The `try` block of `analyzeAndHandle`: every rejection inside it is
caught by the `catch` and degrades to `{ success: false, error: message }`,
so the block as a whole is a total function of the call outcomes. -/
def analyzeAndHandleBody (profile : Profile) (env : AuthEnv) : AuthResult :=
  let loginStatus := checkLoginStatus env.loginEval
  if loginStatus.loggedIn then
    { success := true
      action := some "already_logged_in"
      loggedIn := some loginStatus.loggedIn
      confidence := loginStatus.confidence
      indicators := loginStatus.indicators
      error := loginStatus.error }
  else
    match env.detectForms with
    | Except.error m => { success := false, error := some m }
    | Except.ok authForms =>
      if !authForms.hasAuth then
        { success := true, action := some "no_auth_required" }
      else if authForms.hasGoogleSSO && profile.preferences.preferGoogleSSO then
        match env.ssoResult with
        | Except.ok r => r
        | Except.error m => { success := false, error := some m }
      else if authForms.hasEmailPassword then
        match env.emailPasswordResult with
        | Except.ok r => r
        | Except.error m => { success := false, error := some m }
      else
        { success := false, error := some "Unsupported authentication method" }

/-- `AuthManager.analyzeAndHandle`.  Both `initializeProfile` and
`new URL(url).hostname` run before the `try` block, so an unparseable
`url` throws out of the method (`Except.error`). -/
def analyzeAndHandle (cached : Option Profile) (env : AuthEnv) (url : String) :
    Except String AuthResult :=
  let profile := initializeProfile cached env
  match parseURLHost url with
  | none => Except.error "Invalid URL"
  | some _domain => Except.ok (analyzeAndHandleBody profile env)

/-! ## Orchestrator (`core/orchestrator.js`) -/

/-- Run options.  `autoDeploy` is the value of the JS test
`options.autoDeploy !== false` (an absent option counts as `true`). -/
structure RunOptions where
  skipAuth : Bool
  autoDeploy : Bool
deriving DecidableEq, Repr

/-- Modelled from the spec: the packaging collaborator
(`NPMPackager.createPackage`, not among the provided sources) resolves
with the package path and server entry path, or rejects. -/
structure PackageResult where
  path : String
  serverEntryPath : String
deriving DecidableEq, Repr

/-- The value `ConfigUpdater.addToClaudeDesktop` resolves with (it catches
internally, so it never rejects). -/
structure DeployResult where
  success : Bool
  serverName : Option String := none
  configPath : Option String := none
  requiresRestart : Option Bool := none
  error : Option String := none
deriving DecidableEq, Repr

/-- The run-result payload (`formatSuccess` / `formatError`).  The
wall-clock fields (`elapsed`, per-step timestamps, the `summary` string
interpolating the elapsed time) are I/O elided from the embedding; steps
are carried as their messages. -/
structure RunResult where
  success : Bool
  siteName : String
  url : String
  steps : List String
  error : Option String := none
  tools : Option Nat := none
  packagePath : Option String := none
  deployed : Option Bool := none
  failedAt : Option String := none
deriving DecidableEq, Repr

/-- `generateAutomation`'s observable outcome: the returned result plus
whether the `finally` cleanup left no browser session open. -/
structure RunOutcome where
  result : RunResult
  sessionReleased : Bool
deriving DecidableEq, Repr

/-- Outcomes of the external calls of one `generateAutomation` run, in
stage order.  `interfaceMap` and `deployOutcome` are total because
`mapElements` and `addToClaudeDesktop` catch internally; the remaining
stages may reject. -/
structure OrchEnv where
  initBrowser : Except String Unit
  gotoOutcome : Except String Unit
  authOutcome : Except String AuthResult
  visionOutcome : Except String VisionResult
  interfaceMap : InterfaceMap
  pageUrl : String
  now : String
  packageOutcome : Except String PackageResult
  deployOutcome : DeployResult
deriving Repr

/-- `Orchestrator.navigateToSite`: wraps any `page.goto` failure in
`Navigation failed: <message>`. -/
def navigateToSite (gotoOutcome : Except String Unit) : Except String Unit :=
  match gotoOutcome with
  | Except.ok _ => Except.ok ()
  | Except.error m => Except.error ("Navigation failed: " ++ m)

/-- JS `pipeline.tools?.length`: `pipeline.tools` holds the object
returned by `generateFromAnalysis` (keys `tools`, `totalTools`,
`categories`, `metadata`); it is not an array and has no `length`
property, so the access yields `undefined`. -/
def toolSetLength (_toolSet : ToolSet) : Option Nat := none

/-- `Orchestrator.formatError`: `failedAt` is the message of the last
logged step (`'Unknown'` when there is none). -/
def formatError (siteName url : String) (steps : List String) (errMsg : String) : RunResult :=
  { success := false
    error := some errMsg
    siteName := siteName
    url := url
    steps := steps
    failedAt := some ((steps.getLast?).getD "Unknown") }

/-- `Orchestrator.formatSuccess`: `tools` is
`pipeline.tools?.length || 0` (see `toolSetLength`), `packagePath` is
`pipeline.packageResult?.path` and `deployed` is
`!!pipeline.deployResult?.success`. -/
def formatSuccess (siteName url : String) (steps : List String)
    (toolSet : Option ToolSet) (packageResult : Option PackageResult)
    (deployResult : Option DeployResult) : RunResult :=
  { success := true
    siteName := siteName
    url := url
    steps := steps
    tools := some ((toolSet.bind toolSetLength).getD 0)
    packagePath := packageResult.map (fun p => p.path)
    deployed := some ((deployResult.map (fun d => d.success)).getD false) }

/-- The `catch` branch of `generateAutomation`: logs the failure banner as
a final step, formats the error, and (via `finally`) releases the
session. -/
def failOutcome (siteName url : String) (steps : List String) (m : String) : RunOutcome :=
  let steps := steps ++ ["❌ Pipeline Failed: " ++ m]
  { result := formatError siteName url steps m
    sessionReleased := true }

/-- `Orchestrator.generateAutomation`: the strictly sequential pipeline.
Each stage's log entry is appended before the stage runs; the first
rejecting stage jumps to the `catch` (see `failOutcome`); the `finally`
cleanup closes the browser on every path, so `sessionReleased` is `true`
on every outcome. -/
def generateAutomation (env : OrchEnv) (url siteName : String) (options : RunOptions) :
    RunOutcome :=
  let steps := ["🌐 Initializing Browser Session..."]
  match env.initBrowser with
  | Except.error m => failOutcome siteName url steps m
  | Except.ok _ =>
    let steps := steps ++ ["📍 Navigating to " ++ url ++ "..."]
    match navigateToSite env.gotoOutcome with
    | Except.error m => failOutcome siteName url steps m
    | Except.ok _ =>
      let steps :=
        if options.skipAuth then steps
        else steps ++ ["🔐 Analyzing Authentication Requirements..."]
      let authStage : Except String (Option AuthResult) :=
        if options.skipAuth then Except.ok none else env.authOutcome.map some
      match authStage with
      | Except.error m => failOutcome siteName url steps m
      | Except.ok _authResult =>
        let steps := steps ++ ["👁️ Running Vision Analysis..."]
        match env.visionOutcome with
        | Except.error m => failOutcome siteName url steps m
        | Except.ok visionResult =>
          let steps := steps ++ ["🗺️ Mapping Interface Elements..."]
          let interfaceMap := env.interfaceMap
          let steps := steps ++ ["🔧 Generating MCP Tools..."]
          let toolSet := generateFromAnalysis interfaceMap (some visionResult) env.pageUrl env.now
          let steps := steps ++ ["📦 Creating NPM Package..."]
          match env.packageOutcome with
          | Except.error m => failOutcome siteName url steps m
          | Except.ok packageResult =>
            let deploy : Option DeployResult :=
              if options.autoDeploy then some env.deployOutcome else none
            let steps :=
              if options.autoDeploy then steps ++ ["🚀 Deploying to Claude Desktop..."]
              else steps
            let steps := steps ++ ["✅ Universal MCP Generation Complete!"]
            { result := formatSuccess siteName url steps (some toolSet) (some packageResult) deploy
              sessionReleased := true }

/-! ## Concrete sample inputs used by the theorems below -/

def emptyAttrs : ElementAttributes := ⟨"", "", none, none, none, none⟩

/-- Scenario A's password-type input: an `<input type="password">` with no
text, placeholder or attributes. -/
def pwInput : Element :=
  { id := "element_0", tag := "input", type := "password", text := "", placeholder := ""
    value := "", href := "", rect := ⟨50, 100, 200, 30⟩, attributes := emptyAttrs
    parent := some "form", isVisible := true, isClickable := false, selector := "input" }

/-- Scenario A's submit button labelled `Sign In`. -/
def signInButton : Element :=
  { id := "element_1", tag := "button", type := "submit", text := "Sign In", placeholder := ""
    value := "", href := "", rect := ⟨100, 50, 80, 30⟩, attributes := emptyAttrs
    parent := some "form", isVisible := true, isClickable := true, selector := "button" }

/-- Scenario A's element map: exactly the password input and the
`Sign In` button. -/
def scenarioAMap : ElementMap := ⟨[pwInput, signInButton], 2, 1, [], ["Sign In"]⟩

/-- Scenario B's element map: a page with zero interactive elements. -/
def emptyElementMap : ElementMap := ⟨[], 0, 0, [], []⟩

def emptyAccessData : AccessData := ⟨[], 0⟩

/-- A vision environment whose page URL does not parse. -/
def badVisionEnv : VisionEnv :=
  { pageUrl := "not a url", saveStep := Except.ok (), primary := none, secondary := none
    accessibility := emptyAccessData }

/-- A vision environment with a parseable page URL and both detectors
failing. -/
def goodVisionEnv : VisionEnv :=
  { pageUrl := "https://example.com", saveStep := Except.ok (), primary := none
    secondary := none, accessibility := emptyAccessData }

/-- A visually detected button with per-element confidence 0.6. -/
def velButton : VisionElement :=
  { type := "button", text := some "Sign In", placeholder := none
    location := some ⟨100, 50, 80, 30⟩, confidence := some ((6 : Rat)/10)
    actionable := some true, inputType := none, primary := none }

/-- A visually detected input with per-element confidence 0.6. -/
def velInput : VisionElement :=
  { type := "input", text := none, placeholder := some "Email"
    location := some ⟨50, 100, 200, 25⟩, confidence := some ((6 : Rat)/10)
    actionable := none, inputType := some "email", primary := none }

/-- Scenario C primary result: zero elements, overall confidence 0.9. -/
def scenarioCPrimary : DetectorOut :=
  { method := "visioncraft", confidence := some ((9 : Rat)/10), elements := some []
    detections := none, authFlow := none, navigation := none }

/-- Scenario C primary result variant with overall confidence 0.5
(below the secondary's 0.6). -/
def scenarioCPrimaryLow : DetectorOut :=
  { method := "visioncraft", confidence := some ((1 : Rat)/2), elements := some []
    detections := none, authFlow := none, navigation := none }

/-- Scenario C secondary result: two elements, overall confidence 0.6. -/
def scenarioCSecondary : DetectorOut :=
  { method := "yolo", confidence := some ((6 : Rat)/10), elements := some [velButton, velInput]
    detections := none, authFlow := none, navigation := none }

/-- Scenario B tool synthesis: empty categorized element set, empty
(fallback-shaped) vision result. -/
def scenarioBToolSet : ToolSet :=
  generateFromAnalysis (categorizeElements emptyElementMap) (some createFallbackAnalysis)
    "https://example.com" "2025-06-01T00:00:00.000Z"

/-- Scenario A tool synthesis: the two scenario-A elements, no vision
result. -/
def scenarioAToolSet : ToolSet :=
  generateFromAnalysis (categorizeElements scenarioAMap) none
    "https://example.com" "2025-06-01T00:00:00.000Z"

def emptyEnvConfig : EnvConfig := ⟨none, none, none, none, none, none⟩

/-- An authentication environment: no persisted profile, a page that is
not logged in, and an email/password form present. -/
def sampleAuthEnv : AuthEnv :=
  { envConfig := emptyEnvConfig
    loadProfile := Except.error "ENOENT: no such file or directory"
    loginEval := Except.ok ⟨false, true, "https://example.com/login"⟩
    detectForms := Except.ok ⟨true, false, true⟩
    ssoResult := Except.ok { success := true, action := some "google_sso" }
    emailPasswordResult := Except.ok { success := true, action := some "email_password" } }

/-- Scenario D orchestrator environment: browser launch succeeds,
navigation rejects with a timeout. -/
def scenarioDEnv : OrchEnv :=
  { initBrowser := Except.ok ()
    gotoOutcome := Except.error "Timeout 30000ms exceeded"
    authOutcome := Except.ok { success := true }
    visionOutcome := Except.ok createFallbackAnalysis
    interfaceMap := categorizeElements emptyElementMap
    pageUrl := "https://example.com"
    now := "2025-06-01T00:00:00.000Z"
    packageOutcome := Except.ok ⟨"/generated/example-mcp", "/generated/example-mcp/server.js"⟩
    deployOutcome := { success := true } }

def scenarioDOutcome : RunOutcome :=
  generateAutomation scenarioDEnv "https://example.com" "example" ⟨false, true⟩

/-- An orchestrator environment in which every stage succeeds (on the
zero-element page). -/
def successEnv : OrchEnv :=
  { initBrowser := Except.ok ()
    gotoOutcome := Except.ok ()
    authOutcome := Except.ok { success := true, action := some "no_auth_required" }
    visionOutcome := Except.ok createFallbackAnalysis
    interfaceMap := categorizeElements emptyElementMap
    pageUrl := "https://example.com"
    now := "2025-06-01T00:00:00.000Z"
    packageOutcome := Except.ok ⟨"/generated/example-mcp", "/generated/example-mcp/server.js"⟩
    deployOutcome := { success := true, serverName := some "example-automation"
                       requiresRestart := some true } }

def successOutcome : RunOutcome :=
  generateAutomation successEnv "https://example.com" "example" ⟨false, true⟩

/-! ## C1 — partition law of `categorizeElements` -/

/-- The fold of `categorizeStep` fills each bucket with exactly the
elements whose first-matching category is that bucket, in input order. -/
lemma categorize_foldl (els : List Element) (cats : Categories) :
    els.foldl categorizeStep cats =
      { authentication := cats.authentication ++ els.filter (fun e => categoryOf e == "authentication")
        navigation := cats.navigation ++ els.filter (fun e => categoryOf e == "navigation")
        forms := cats.forms ++ els.filter (fun e => categoryOf e == "forms")
        actions := cats.actions ++ els.filter (fun e => categoryOf e == "actions")
        content := cats.content ++ els.filter (fun e => categoryOf e == "content") } := by
  induction els generalizing cats with
  | nil => simp
  | cons e els ih =>
    rw [List.foldl_cons, ih]
    by_cases h1 : isAuthElement e
    · simp [categorizeStep, categoryOf, h1, List.filter_cons]
    · by_cases h2 : isNavigationElement e
      · simp [categorizeStep, categoryOf, h1, h2, List.filter_cons]
      · by_cases h3 : isFormElement e
        · simp [categorizeStep, categoryOf, h1, h2, h3, List.filter_cons]
        · by_cases h4 : isActionElement e
          · simp [categorizeStep, categoryOf, h1, h2, h3, h4, List.filter_cons]
          · simp [categorizeStep, categoryOf, h1, h2, h3, h4, List.filter_cons]

lemma categoryOf_mem_catNames (element : Element) : categoryOf element ∈ catNames := by
  unfold categoryOf catNames
  split_ifs <;> simp

lemma lookup_auth (cats : Categories) :
    List.lookup "authentication" (categoriesEntries cats) = some cats.authentication := rfl

lemma lookup_nav (cats : Categories) :
    List.lookup "navigation" (categoriesEntries cats) = some cats.navigation := rfl

lemma lookup_forms (cats : Categories) :
    List.lookup "forms" (categoriesEntries cats) = some cats.forms := rfl

lemma lookup_actions (cats : Categories) :
    List.lookup "actions" (categoriesEntries cats) = some cats.actions := rfl

lemma lookup_content (cats : Categories) :
    List.lookup "content" (categoriesEntries cats) = some cats.content := rfl

lemma categorizeElements_categories (m : ElementMap) :
    (categorizeElements m).categories =
      categoriesEntries (m.elements.foldl categorizeStep initCategories) := rfl

/-- C1: for every input element map, `categorizeElements` places each
element in exactly one of the five categories: an element is in the
bucket named `c` iff `c` is `categoryOf` the element, where `categoryOf`
tests the predicates in the fixed precedence order authentication →
navigation → forms → actions → content and the first match wins. -/
theorem categorizeElements_partition (m : ElementMap) (element : Element)
    (he : element ∈ m.elements) :
    categoryOf element ∈ catNames ∧
    ∀ c ∈ catNames,
      (element ∈ (List.lookup c (categorizeElements m).categories).getD [] ↔
        c = categoryOf element) := by
  refine ⟨categoryOf_mem_catNames element, ?_⟩
  intro c hc
  have hcases : c = "authentication" ∨ c = "navigation" ∨ c = "forms" ∨ c = "actions" ∨
      c = "content" := by simpa [catNames] using hc
  rcases hcases with rfl | rfl | rfl | rfl | rfl
  · rw [categorizeElements_categories, lookup_auth, categorize_foldl]
    show element ∈ List.filter (fun e => categoryOf e == "authentication") m.elements ↔ _
    simp only [List.mem_filter, beq_iff_eq, he, true_and]
    exact eq_comm
  · rw [categorizeElements_categories, lookup_nav, categorize_foldl]
    show element ∈ List.filter (fun e => categoryOf e == "navigation") m.elements ↔ _
    simp only [List.mem_filter, beq_iff_eq, he, true_and]
    exact eq_comm
  · rw [categorizeElements_categories, lookup_forms, categorize_foldl]
    show element ∈ List.filter (fun e => categoryOf e == "forms") m.elements ↔ _
    simp only [List.mem_filter, beq_iff_eq, he, true_and]
    exact eq_comm
  · rw [categorizeElements_categories, lookup_actions, categorize_foldl]
    show element ∈ List.filter (fun e => categoryOf e == "actions") m.elements ↔ _
    simp only [List.mem_filter, beq_iff_eq, he, true_and]
    exact eq_comm
  · rw [categorizeElements_categories, lookup_content, categorize_foldl]
    show element ∈ List.filter (fun e => categoryOf e == "content") m.elements ↔ _
    simp only [List.mem_filter, beq_iff_eq, he, true_and]
    exact eq_comm

/-- C1 witness: the partition theorem applied to the concrete scenario-A
map and its password input. -/
theorem categorizeElements_partition_witness :
    pwInput ∈ scenarioAMap.elements ∧
    (categoryOf pwInput ∈ catNames ∧
     ∀ c ∈ catNames,
       (pwInput ∈ (List.lookup c (categorizeElements scenarioAMap).categories).getD [] ↔
         c = categoryOf pwInput)) :=
  ⟨by simp [scenarioAMap], categorizeElements_partition scenarioAMap pwInput (by simp [scenarioAMap])⟩

/-! ## C2 — the vision coordinator's error boundary -/

/-- C2 counterexample: `analyze` is claimed never to let an exception
escape, but `generateAnalysisId(page.url())` runs before the `try` block,
so a page whose URL does not parse makes the `new URL` constructor throw
out of `analyze`. -/
theorem analyze_escape_counterexample :
    analyze badVisionEnv = Except.error "Invalid URL" := rfl

/-- C2 amended: for every input whose page URL parses, `analyze` returns a
`VisionResult` and never lets an exception escape; in particular, when
both detectors fail, or when the internal screenshot-save step throws, it
returns the fixed degraded result (`method` "fallback", confidence 0.5,
empty element list, `authFlow.detected` false, empty navigation
summaries). -/
theorem analyze_amended (env : VisionEnv) (h : (parseURLHost env.pageUrl).isSome = true) :
    (∃ r, analyze env = Except.ok r) ∧
    (env.primary = none → env.secondary = none →
      analyze env = Except.ok createFallbackAnalysis) ∧
    (∀ msg, env.saveStep = Except.error msg →
      analyze env = Except.ok createFallbackAnalysis) := by
  obtain ⟨host, hh⟩ := Option.isSome_iff_exists.mp h
  refine ⟨?_, ?_, ?_⟩
  · cases hs : env.saveStep with
    | error m => exact ⟨createFallbackAnalysis, by simp [analyze, hh, hs]⟩
    | ok u =>
      cases hp : env.primary with
      | none =>
        cases hq : env.secondary with
        | none =>
          exact ⟨createFallbackAnalysis,
            by simp [analyze, hh, hs, hp, hq, mergeAnalysis, isAnalysisComplete]⟩
        | some s =>
          exact ⟨{ liftOut s with accessibility := some env.accessibility },
            by simp [analyze, hh, hs, hp, hq, mergeAnalysis, isAnalysisComplete]⟩
      | some p =>
        by_cases hc : isAnalysisComplete (some p)
        · exact ⟨{ liftOut p with accessibility := some env.accessibility },
            by simp [analyze, hh, hs, hp, hc, liftOut]⟩
        · cases hq : env.secondary with
          | none =>
            exact ⟨{ liftOut p with accessibility := some env.accessibility },
              by simp [analyze, hh, hs, hp, hq, hc, mergeAnalysis, liftOut]⟩
          | some s =>
            refine ⟨{ out := { p with confidence := some (max (p.confidence.getD 0) (s.confidence.getD 0)) }, yoloBackup := some s, multiModal := true, accessibility := some env.accessibility, error := none }, ?_⟩
            simp [analyze, hh, hs, hp, hq, hc, mergeAnalysis]
  · intro hp hsc
    cases hs : env.saveStep with
    | error m => simp [analyze, hh, hs]
    | ok u => simp [analyze, hh, hs, hp, hsc, mergeAnalysis, isAnalysisComplete]
  · intro msg hs
    simp [analyze, hh, hs]

/-- C2 witness: the amended theorem applied to a concrete environment with
a parseable URL and both detectors failing. -/
theorem analyze_amended_witness :
    ((parseURLHost goodVisionEnv.pageUrl).isSome = true) ∧
    ((∃ r, analyze goodVisionEnv = Except.ok r) ∧
     (goodVisionEnv.primary = none → goodVisionEnv.secondary = none →
       analyze goodVisionEnv = Except.ok createFallbackAnalysis) ∧
     (∀ msg, goodVisionEnv.saveStep = Except.error msg →
       analyze goodVisionEnv = Except.ok createFallbackAnalysis)) :=
  ⟨by decide, analyze_amended goodVisionEnv (by decide)⟩

/-! ## C3 — the merge law -/

/-- C3: for every pair of non-null primary and secondary detector results,
the merged result's confidence is the maximum of the two confidences, a
missing confidence counting as 0. -/
theorem mergeAnalysis_confidence_max (primary secondary : DetectorOut) :
    (mergeAnalysis (some primary) (some secondary)).map (fun v => v.out.confidence) =
      some (some (max (primary.confidence.getD 0) (secondary.confidence.getD 0))) := rfl

/-! ## C4 — scenario C (empty primary, two-element secondary) -/

/-- C4 counterexample: with a zero-element primary of confidence 0.9 and a
two-element secondary of confidence 0.6, the merged result keeps the
primary's empty element list (not non-empty as claimed) and its
confidence is 0.9, not 0.6. -/
theorem merge_scenarioC_counterexample :
    ((mergeAnalysis (some scenarioCPrimary) (some scenarioCSecondary)).map
        (fun v => v.out.elements)) = some (some []) ∧
    ((mergeAnalysis (some scenarioCPrimary) (some scenarioCSecondary)).map
        (fun v => v.out.confidence)) = some (some ((9 : Rat)/10)) ∧
    ((9 : Rat)/10 : Rat) ≠ (6 : Rat)/10 := by
  refine ⟨rfl, ?_, by norm_num⟩
  show some (some (max ((9 : Rat)/10) ((6 : Rat)/10))) = some (some ((9 : Rat)/10))
  norm_num

/-- C4 amended: for a zero-element primary whose confidence is at most
0.6 and a secondary with confidence 0.6 and two elements, the primary is
incomplete (triggering the fallback detector), and the merged result has
confidence 0.6, keeps the primary's empty element list, and carries the
secondary's two elements in its non-empty `yoloBackup` field. -/
theorem merge_scenarioC_amended (primary secondary : DetectorOut) (es : List VisionElement)
    (h1 : primary.elements = some []) (h2 : primary.confidence.getD 0 ≤ (6 : Rat)/10)
    (h3 : secondary.confidence = some ((6 : Rat)/10)) (h4 : secondary.elements = some es)
    (h5 : es.length = 2) :
    isAnalysisComplete (some primary) = false ∧
    ∃ v, mergeAnalysis (some primary) (some secondary) = some v ∧
      v.out.confidence = some ((6 : Rat)/10) ∧
      v.out.elements = some [] ∧
      v.yoloBackup = some secondary ∧
      (v.yoloBackup.bind (fun b => b.elements)).getD [] ≠ [] := by
  constructor
  · simp [isAnalysisComplete, h1]
  · refine ⟨_, rfl, ?_, ?_, rfl, ?_⟩
    · simp [h3, max_eq_right h2]
    · simpa using h1
    · show (secondary.elements).getD [] ≠ []
      rw [h4]
      show es ≠ []
      intro hnil
      rw [hnil] at h5
      simp at h5

/-- C4 witness: the amended theorem applied to a concrete
confidence-0.5 empty primary and the two-element confidence-0.6
secondary. -/
theorem merge_scenarioC_amended_witness :
    scenarioCPrimaryLow.elements = some [] ∧
    scenarioCPrimaryLow.confidence.getD 0 ≤ (6 : Rat)/10 ∧
    scenarioCSecondary.confidence = some ((6 : Rat)/10) ∧
    scenarioCSecondary.elements = some [velButton, velInput] ∧
    ([velButton, velInput] : List VisionElement).length = 2 ∧
    (isAnalysisComplete (some scenarioCPrimaryLow) = false ∧
     ∃ v, mergeAnalysis (some scenarioCPrimaryLow) (some scenarioCSecondary) = some v ∧
       v.out.confidence = some ((6 : Rat)/10) ∧
       v.out.elements = some [] ∧
       v.yoloBackup = some scenarioCSecondary ∧
       (v.yoloBackup.bind (fun b => b.elements)).getD [] ≠ []) :=
  ⟨rfl, by norm_num [scenarioCPrimaryLow], rfl, rfl, rfl,
   merge_scenarioC_amended scenarioCPrimaryLow scenarioCSecondary [velButton, velInput]
     rfl (by norm_num [scenarioCPrimaryLow]) rfl rfl rfl⟩

/-! ## C5 — scenario B (zero interactive elements) -/

/-- C5 counterexample: on the zero-element page, `totalElements` is 0 and
the automation-potential score is 0 as claimed, but synthesis emits 4
tools, not 3: `groupFormElements` wraps even an empty forms category into
one group, so an empty fill-form tool is emitted besides the three base
tools. -/
theorem scenarioB_toolCount_counterexample :
    (categorizeElements emptyElementMap).totalElements = some 0 ∧
    ((categorizeElements emptyElementMap).automationPotential.map (fun a => a.score)) = some 0 ∧
    scenarioBToolSet.totalTools ≠ 3 := by
  refine ⟨rfl, rfl, ?_⟩
  show (4 : Nat) ≠ 3
  decide

/-- C5 amended: on the zero-element page the mapping reports
`totalElements` 0 and automation-potential score 0, and synthesis emits
exactly 4 tools: the three base tools plus one empty fill-form tool from
the single (empty) form group. -/
theorem scenarioB_amended :
    (categorizeElements emptyElementMap).totalElements = some 0 ∧
    ((categorizeElements emptyElementMap).automationPotential.map (fun a => a.score)) = some 0 ∧
    scenarioBToolSet.totalTools = 4 ∧
    scenarioBToolSet.tools.map (fun t => t.name) =
      ["example_com_initialize", "example_com_screenshot", "example_com_get_status",
       "example_com_fill_form_1"] :=
  ⟨rfl, rfl, rfl, rfl⟩

/-! ## C6 — scenario A (password input and Sign In button) -/

/-- C6 counterexample: the password input is classified `authentication`
as claimed, but synthesis emits no `example_com_login` tool: the only
authentication-category element (the password input) has empty text, and
the `Sign In` button — whose text lacks the contiguous keyword
`signin` — is categorized as an action. -/
theorem scenarioA_login_counterexample :
    categoryOf pwInput = "authentication" ∧
    ¬(scenarioAToolSet.tools.any (fun t => t.name == "example_com_login") = true) := by
  refine ⟨rfl, ?_⟩
  decide

/-- C6 amended: the password input is classified `authentication` (and is
the sole element of that bucket), but no login tool is emitted; the
synthesized tools are the three base tools, the empty fill-form tool, and
an `example_com_sign_in` action tool derived from the button. -/
theorem scenarioA_amended :
    categoryOf pwInput = "authentication" ∧
    (List.lookup "authentication" (categorizeElements scenarioAMap).categories).getD [] =
      [pwInput] ∧
    scenarioAToolSet.tools.any (fun t => t.name == "example_com_login") = false ∧
    scenarioAToolSet.tools.map (fun t => t.name) =
      ["example_com_initialize", "example_com_screenshot", "example_com_get_status",
       "example_com_fill_form_1", "example_com_sign_in"] :=
  ⟨rfl, rfl, by decide, rfl⟩

/-! ## C7 — the authentication detector's error boundary -/

/-- C7 counterexample: `analyzeAndHandle` is claimed never to throw, but
`new URL(url).hostname` runs before the `try` block, so an unparseable
url makes the `URL` constructor throw out of the method instead of
degrading to `{ success: false, error }`. -/
theorem analyzeAndHandle_throws_counterexample :
    analyzeAndHandle none sampleAuthEnv "not a url" = Except.error "Invalid URL" := rfl

/-- C7 amended: for every session environment and parseable url,
`analyzeAndHandle` returns normally; failures inside the `try` block
degrade to `{ success: false, error }` — in particular a rejection of the
authentication-form detection on a not-logged-in page.  (Profile
load/create failures never throw at all: the loader falls back to an
environment-derived default profile.) -/
theorem analyzeAndHandle_amended (cached : Option Profile) (env : AuthEnv) (url : String)
    (h : (parseURLHost url).isSome = true) :
    (∃ r, analyzeAndHandle cached env url = Except.ok r) ∧
    (∀ m, (checkLoginStatus env.loginEval).loggedIn = false →
      env.detectForms = Except.error m →
      analyzeAndHandle cached env url = Except.ok { success := false, error := some m }) := by
  obtain ⟨host, hh⟩ := Option.isSome_iff_exists.mp h
  constructor
  · exact ⟨analyzeAndHandleBody (initializeProfile cached env) env,
      by simp only [analyzeAndHandle, hh]⟩
  · intro m hlog hdf
    simp [analyzeAndHandle, analyzeAndHandleBody, hh, hlog, hdf]

/-- C7 witness: the amended theorem applied to a concrete environment and
a parseable url. -/
theorem analyzeAndHandle_amended_witness :
    ((parseURLHost "https://example.com/login").isSome = true) ∧
    ((∃ r, analyzeAndHandle none sampleAuthEnv "https://example.com/login" = Except.ok r) ∧
     (∀ m, (checkLoginStatus sampleAuthEnv.loginEval).loggedIn = false →
       sampleAuthEnv.detectForms = Except.error m →
       analyzeAndHandle none sampleAuthEnv "https://example.com/login" =
         Except.ok { success := false, error := some m })) :=
  ⟨by decide, analyzeAndHandle_amended none sampleAuthEnv "https://example.com/login" (by decide)⟩

/-! ## C8 — scenario D (navigation failure) -/

/-- C8 counterexample: when navigation times out the run fails, but
`failedAt` is not the navigation stage's label: the `catch` block appends
a `Pipeline Failed` log entry before `formatError` reads the last step's
message, so `failedAt` carries the failure banner instead. -/
theorem scenarioD_failedAt_counterexample :
    scenarioDOutcome.result.success = false ∧
    scenarioDOutcome.result.failedAt =
      some "❌ Pipeline Failed: Navigation failed: Timeout 30000ms exceeded" ∧
    scenarioDOutcome.result.failedAt ≠ some "📍 Navigating to https://example.com..." := by
  refine ⟨rfl, rfl, ?_⟩
  decide

/-- C8 amended: whenever browser launch succeeds and navigation rejects,
the run result has `success` false, records the wrapped navigation error,
its step log ends at the navigation stage (no later stage executes), and
`failedAt` equals the final `Pipeline Failed` log banner — the navigation
stage's label is the second-to-last step; the session is released on this
exit path. -/
theorem scenarioD_amended (env : OrchEnv) (url siteName : String) (options : RunOptions)
    (m : String) (h1 : env.initBrowser = Except.ok ()) (h2 : env.gotoOutcome = Except.error m) :
    generateAutomation env url siteName options =
      { result := { success := false
                    siteName := siteName
                    url := url
                    steps := ["🌐 Initializing Browser Session...",
                              "📍 Navigating to " ++ url ++ "...",
                              "❌ Pipeline Failed: " ++ ("Navigation failed: " ++ m)]
                    error := some ("Navigation failed: " ++ m)
                    failedAt := some ("❌ Pipeline Failed: " ++ ("Navigation failed: " ++ m)) }
        sessionReleased := true } := by
  simp [generateAutomation, navigateToSite, failOutcome, formatError, h1, h2]

/-- C8 witness: the amended theorem applied to the concrete scenario-D
environment (navigation timeout after a successful browser launch). -/
theorem scenarioD_amended_witness :
    scenarioDEnv.initBrowser = Except.ok () ∧
    scenarioDEnv.gotoOutcome = Except.error "Timeout 30000ms exceeded" ∧
    generateAutomation scenarioDEnv "https://example.com" "example" ⟨false, true⟩ =
      { result := { success := false
                    siteName := "example"
                    url := "https://example.com"
                    steps := ["🌐 Initializing Browser Session...",
                              "📍 Navigating to https://example.com...",
                              "❌ Pipeline Failed: Navigation failed: Timeout 30000ms exceeded"]
                    error := some "Navigation failed: Timeout 30000ms exceeded"
                    failedAt :=
                      some "❌ Pipeline Failed: Navigation failed: Timeout 30000ms exceeded" }
        sessionReleased := true } :=
  ⟨rfl, rfl, scenarioD_amended scenarioDEnv "https://example.com" "example" ⟨false, true⟩
    "Timeout 30000ms exceeded" rfl rfl⟩

/-! ## C9 — determinism of the tool synthesizer -/

/-- C9 counterexample: two invocations of `generateFromAnalysis` on
identical categorized elements, vision result and url, made at different
clock times, produce different `ToolSet` values — `metadata.generatedAt`
records the invocation's wall-clock time. -/
theorem generateFromAnalysis_clock_counterexample :
    generateFromAnalysis (categorizeElements scenarioAMap) none "https://example.com"
        "2025-06-01T00:00:00.000Z" ≠
      generateFromAnalysis (categorizeElements scenarioAMap) none "https://example.com"
        "2025-06-01T00:00:01.000Z" := by
  intro h
  have hts := congrArg (fun ts => ts.metadata.generatedAt) h
  exact absurd hts (by decide)

/-- C9 amended: `generateFromAnalysis` is deterministic in every component
except `metadata.generatedAt`: for any two invocations with identical
categorized elements, vision result and url, the tools, tool count,
category list and all other metadata fields coincide, while
`generatedAt` simply echoes each invocation's clock reading. -/
theorem generateFromAnalysis_deterministic_amended (interfaceMap : InterfaceMap)
    (visionResult : Option VisionResult) (url now now' : String) :
    (generateFromAnalysis interfaceMap visionResult url now).tools =
      (generateFromAnalysis interfaceMap visionResult url now').tools ∧
    (generateFromAnalysis interfaceMap visionResult url now).totalTools =
      (generateFromAnalysis interfaceMap visionResult url now').totalTools ∧
    (generateFromAnalysis interfaceMap visionResult url now).categories =
      (generateFromAnalysis interfaceMap visionResult url now').categories ∧
    (generateFromAnalysis interfaceMap visionResult url now).metadata.url =
      (generateFromAnalysis interfaceMap visionResult url now').metadata.url ∧
    (generateFromAnalysis interfaceMap visionResult url now).metadata.siteName =
      (generateFromAnalysis interfaceMap visionResult url now').metadata.siteName ∧
    (generateFromAnalysis interfaceMap visionResult url now).metadata.interfaceElements =
      (generateFromAnalysis interfaceMap visionResult url now').metadata.interfaceElements ∧
    (generateFromAnalysis interfaceMap visionResult url now).metadata.generatedAt = now :=
  ⟨rfl, rfl, rfl, rfl, rfl, rfl, rfl⟩

/-! ## C10 — the success payload's tool count -/

/-- C10 (code bug): on a fully successful run the payload's tool-count
field is `some 0`, while the synthesizer produced a 4-tool set:
`formatSuccess` computes `pipeline.tools?.length || 0`, but
`pipeline.tools` holds the ToolSet object (keys `tools` / `totalTools` /
`categories` / `metadata`), which has no `length` property, so the
reported count is always 0 instead of the actual tool count. -/
theorem formatSuccess_toolCount_bug :
    successOutcome.result.success = true ∧
    successOutcome.result.tools = some 0 ∧
    scenarioBToolSet.totalTools = 4 ∧
    successOutcome.result.tools ≠ some scenarioBToolSet.totalTools := by
  refine ⟨rfl, rfl, rfl, ?_⟩
  show some 0 ≠ some 4
  decide

end OpenWorldAgent
